import Mathlib

/-!
Shallow embedding of the WAASP whitelist core (waasp/models/contact.py,
waasp/models/audit.py, waasp/services/whitelist.py, waasp/services/audit.py).

The contact store and the audit log are modelled as lists kept in insertion
order; a SQLAlchemy `query.filter_by(...).first()` becomes `List.find?` on
that list, `db.session.delete` becomes erasure of the first equal row, and an
in-place ORM mutation becomes replacement of the first equal row.  Python
`str | None` parameters become `Option String`; Python truthiness of a string
(`if channel:`) is `channel` being `some c` with `c ≠ ""`.  Each service
method takes the database state explicitly and returns it updated; a raised
`ValueError` becomes `Except.error` carrying the message.
-/

instance {ε α : Type} [DecidableEq ε] [DecidableEq α] : DecidableEq (Except ε α) := fun a b =>
  match a, b with
  | .ok x, .ok y =>
    if h : x = y then .isTrue (by rw [h]) else .isFalse (by intro hc; cases hc; exact h rfl)
  | .error x, .error y =>
    if h : x = y then .isTrue (by rw [h]) else .isFalse (by intro hc; cases hc; exact h rfl)
  | .ok _, .error _ => .isFalse (by intro hc; cases hc)
  | .error _, .ok _ => .isFalse (by intro hc; cases hc)

namespace Waasp

/-- Trust levels, from waasp/models/contact.py (`class TrustLevel`). -/
inductive TrustLevel where
  | sovereign
  | trusted
  | limited
  | blocked
deriving DecidableEq, Repr

/-- The `.value` string of each enum member. -/
def TrustLevel.value : TrustLevel → String
  | .sovereign => "sovereign"
  | .trusted => "trusted"
  | .limited => "limited"
  | .blocked => "blocked"

/-- Python `str.lower()` restricted to the ASCII case mapping, which is all
the enum values exercise. -/
def pyLower (s : String) : String := ⟨s.data.map Char.toLower⟩

/-- Port of `TrustLevel.from_string`: `cls(value.lower())`, i.e. match the lowercased
input against the four enum values, with `ValueError` caught and mapped to
`BLOCKED` (the safe default).  Totality of this Lean function is the
"never raises" part of the contract. -/
def TrustLevel.from_string (value : String) : TrustLevel :=
  let v := pyLower value
  if v = "sovereign" then .sovereign
  else if v = "trusted" then .trusted
  else if v = "limited" then .limited
  else if v = "blocked" then .blocked
  else .blocked

/-- A row of the `contacts` table (waasp/models/contact.py).  The surrogate
`id` and the timestamps are not modelled; rows are identified positionally in
the store list. -/
structure Contact where
  sender_id : String
  channel : Option String
  name : Option String
  trust_level : TrustLevel
  notes : Option String
deriving DecidableEq, Repr

/-- Enumeration `AuditAction` from waasp/models/audit.py, exact constructor set. -/
inductive AuditAction where
  | allowed
  | blocked
  | limited
  | contact_added
  | contact_updated
  | contact_removed
  | trust_changed
  | check_performed
  | api_access
deriving DecidableEq, Repr

/-- A row of the `audit_logs` table.  The nullable `contact_id` foreign key
is modelled as the (optional) referenced contact value itself. -/
structure AuditLog where
  action : AuditAction
  sender_id : String
  channel : Option String
  contact_id : Option Contact
  message_preview : Option String
  decision_reason : Option String
  metadata_json : Option String
deriving DecidableEq, Repr

/-- Result dataclass `CheckResult` from waasp/services/whitelist.py. -/
structure CheckResult where
  allowed : Bool
  trust_level : TrustLevel
  contact : Option Contact
  reason : String
deriving DecidableEq, Repr

/-- The database: the two tables, each in insertion order. -/
structure DBState where
  contacts : List Contact
  audit : List AuditLog
deriving DecidableEq, Repr

/-- The preview truncation in `AuditService.log_check`:
`if message_preview and len(message_preview) > 500:
   message_preview = message_preview[:497] + "..."`. -/
def truncatePreview (mp : String) : String :=
  if mp ≠ "" ∧ 500 < mp.length then ⟨mp.data.take 497 ++ ['.', '.', '.']⟩ else mp

/-- Port of `AuditService.log_check` (waasp/services/audit.py): builds one `AuditLog`
row and appends it.  `WhitelistService.check` never passes `metadata`, and
`json.dumps(metadata) if metadata else None` yields `None` then, so
`metadata_json` is `none` here. -/
def AuditService.log_check (sender_id : String) (action : AuditAction)
    (channel : Option String) (contact : Option Contact)
    (reason : Option String) (message_preview : Option String)
    (st : DBState) : AuditLog × DBState :=
  let entry : AuditLog :=
    { action := action
      sender_id := sender_id
      channel := channel
      contact_id := contact
      message_preview := message_preview.map truncatePreview
      decision_reason := reason
      metadata_json := none }
  (entry, { st with audit := st.audit ++ [entry] })

/-- Port of `AuditService.log_admin_action`: the whitelist service never passes
`performed_by`, so `metadata` stays the empty (falsy) dict and
`metadata_json` is `None`. -/
def AuditService.log_admin_action (action : AuditAction) (sender_id : String)
    (channel : Option String) (contact : Option Contact)
    (reason : Option String) (st : DBState) : AuditLog × DBState :=
  let entry : AuditLog :=
    { action := action
      sender_id := sender_id
      channel := channel
      contact_id := contact
      message_preview := none
      decision_reason := reason
      metadata_json := none }
  (entry, { st with audit := st.audit ++ [entry] })

/-- Port of `WhitelistService._find_contact`: channel-specific exact lookup when the
`channel` argument is truthy (a nonempty string), then fallback to the global
`channel=None` row. -/
def WhitelistService.find_contact (sender_id : String) (channel : Option String)
    (contacts : List Contact) : Option Contact :=
  let globalRow :=
    contacts.find? fun c => decide (c.sender_id = sender_id ∧ c.channel = none)
  match channel with
  | some ch =>
    if ch ≠ "" then
      match contacts.find? fun c =>
          decide (c.sender_id = sender_id ∧ c.channel = some ch) with
      | some c => some c
      | none => globalRow
    else globalRow
  | none => globalRow

/-- Port of `WhitelistService.check`. -/
def WhitelistService.check (sender_id : String) (channel : Option String)
    (message_preview : Option String) (st : DBState) : CheckResult × DBState :=
  match WhitelistService.find_contact sender_id channel st.contacts with
  | none =>
    let result : CheckResult :=
      { allowed := false
        trust_level := .blocked
        contact := none
        reason := "Unknown sender - not in whitelist" }
    let logged := AuditService.log_check sender_id .blocked channel none
      (some result.reason) message_preview st
    (result, logged.2)
  | some contact =>
    let result : CheckResult :=
      if contact.trust_level = .blocked then
        { allowed := false
          trust_level := .blocked
          contact := some contact
          reason := "Sender is explicitly blocked" }
      else if contact.trust_level = .limited then
        { allowed := true
          trust_level := .limited
          contact := some contact
          reason := "Sender has limited access" }
      else
        { allowed := true
          trust_level := contact.trust_level
          contact := some contact
          reason := "Sender is " ++ contact.trust_level.value }
    let action := if result.allowed then AuditAction.allowed else AuditAction.blocked
    let action := if result.trust_level = .limited then AuditAction.limited else action
    let logged := AuditService.log_check sender_id action channel (some contact)
      (some result.reason) message_preview st
    (result, logged.2)

/-- The unique index `ix_contacts_sender_channel` on
`(sender_id, channel)` declared in waasp/models/contact.py, with the SQL
convention that NULL channels never collide: inserting `contact` violates it
iff an existing row has the same sender and the same non-null channel. -/
def uniqueViolation (contact : Contact) (contacts : List Contact) : Bool :=
  contacts.any fun c =>
    decide (c.sender_id = contact.sender_id) &&
      match c.channel, contact.channel with
      | some a, some b => decide (a = b)
      | _, _ => false

/-- Port of `WhitelistService.add_contact`: application-level duplicate check via
`_find_contact` (hence with global fallback), then insert; the commit can
still fail on the storage-level unique index. -/
def WhitelistService.add_contact (sender_id : String) (trust_level : TrustLevel)
    (channel name notes : Option String) (st : DBState) :
    Except String (Contact × DBState) :=
  match WhitelistService.find_contact sender_id channel st.contacts with
  | some _ => .error ("Contact " ++ sender_id ++ " already exists")
  | none =>
    let contact : Contact :=
      { sender_id := sender_id
        channel := channel
        name := name
        trust_level := trust_level
        notes := notes }
    if uniqueViolation contact st.contacts then
      .error "UNIQUE constraint failed: contacts.sender_id, contacts.channel"
    else
      let st₁ : DBState := { st with contacts := st.contacts ++ [contact] }
      let logged := AuditService.log_admin_action .contact_added sender_id channel
        (some contact) (some ("Added with trust level " ++ trust_level.value)) st₁
      .ok (contact, logged.2)

/-- Replace the first row equal to `old` by `updated` (the ORM in-place
mutation of the row `_find_contact` returned). -/
def replaceFirst : List Contact → Contact → Contact → List Contact
  | [], _, _ => []
  | x :: xs, old, updated =>
    if x = old then updated :: xs else x :: replaceFirst xs old updated

/-- Port of `WhitelistService.update_contact`: partial update of the row found by
`_find_contact`; audit entry is `TRUST_CHANGED` exactly when a trust level
was passed and differs from the old one, else `CONTACT_UPDATED`. -/
def WhitelistService.update_contact (sender_id : String) (channel : Option String)
    (trust_level : Option TrustLevel) (name notes : Option String) (st : DBState) :
    Except String (Contact × DBState) :=
  match WhitelistService.find_contact sender_id channel st.contacts with
  | none => .error ("Contact " ++ sender_id ++ " not found")
  | some contact =>
    let old_trust := contact.trust_level
    let updated : Contact :=
      { contact with
        trust_level := (match trust_level with
          | some t => t
          | none => contact.trust_level)
        name := (match name with
          | some n => some n
          | none => contact.name)
        notes := (match notes with
          | some n => some n
          | none => contact.notes) }
    let st₁ : DBState := { st with contacts := replaceFirst st.contacts contact updated }
    let logged :=
      match trust_level with
      | some t =>
        if t ≠ old_trust then
          AuditService.log_admin_action .trust_changed sender_id channel
            (some updated)
            (some ("Trust changed from " ++ old_trust.value ++ " to " ++ t.value)) st₁
        else
          AuditService.log_admin_action .contact_updated sender_id channel
            (some updated) (some "Contact details updated") st₁
      | none =>
        AuditService.log_admin_action .contact_updated sender_id channel
          (some updated) (some "Contact details updated") st₁
    .ok (updated, logged.2)

/-- Port of `WhitelistService.remove_contact`: delete the row found by
`_find_contact`; not-found is the normal `false` result. -/
def WhitelistService.remove_contact (sender_id : String) (channel : Option String)
    (st : DBState) : Bool × DBState :=
  match WhitelistService.find_contact sender_id channel st.contacts with
  | none => (false, st)
  | some contact =>
    let st₁ : DBState := { st with contacts := st.contacts.erase contact }
    let logged := AuditService.log_admin_action .contact_removed sender_id channel
      none (some "Contact removed from whitelist") st₁
    (true, logged.2)

/-! ## Helper lemmas -/

lemma find_contact_eq_none (s : String) (ch : Option String) (l : List Contact)
    (h : ∀ c ∈ l, c.sender_id ≠ s) :
    WhitelistService.find_contact s ch l = none := by
  have hg : l.find? (fun c => decide (c.sender_id = s ∧ c.channel = none)) = none := by
    rw [List.find?_eq_none]
    intro c hc
    simp [h c hc]
  have hs : ∀ chs : String,
      l.find? (fun c => decide (c.sender_id = s ∧ c.channel = some chs)) = none := by
    intro chs
    rw [List.find?_eq_none]
    intro c hc
    simp [h c hc]
  unfold WhitelistService.find_contact
  cases ch with
  | none => exact hg
  | some c =>
    by_cases hc : c = ""
    · subst hc
      exact hg
    · simp only [ne_eq, hc, not_false_eq_true, ite_true]
      rw [hs c]
      exact hg

lemma check_trust_level (s : String) (ch mp : Option String) (st : DBState) :
    ((WhitelistService.check s ch mp st).1).trust_level =
      (match WhitelistService.find_contact s ch st.contacts with
       | none => TrustLevel.blocked
       | some c => c.trust_level) := by
  unfold WhitelistService.check
  cases hf : WhitelistService.find_contact s ch st.contacts with
  | none => simp
  | some c => cases hc : c.trust_level <;> simp [hc]

/-! ## Claims -/

/-- C1: any sender_id with no contact record in the store, checked with any
channel argument, is denied: `allowed = false`, `trust_level = blocked`,
`contact = none`, and the exact reason string
"Unknown sender - not in whitelist". -/
theorem c1_fail_closed (s : String) (ch mp : Option String) (st : DBState)
    (h : ∀ c ∈ st.contacts, c.sender_id ≠ s) :
    (WhitelistService.check s ch mp st).1 =
      { allowed := false
        trust_level := .blocked
        contact := none
        reason := "Unknown sender - not in whitelist" } := by
  unfold WhitelistService.check
  rw [find_contact_eq_none s ch st.contacts h]

theorem c1_fail_closed_witness :
    (WhitelistService.check "a" (some "whatsapp") none
      ⟨[⟨"b", none, none, TrustLevel.trusted, none⟩], []⟩).1 =
      { allowed := false
        trust_level := .blocked
        contact := none
        reason := "Unknown sender - not in whitelist" } :=
  c1_fail_closed "a" (some "whatsapp") none
    ⟨[⟨"b", none, none, TrustLevel.trusted, none⟩], []⟩ (by decide)

/-- C2 counterexample: with a global trusted record and a channel-specific
record for the empty-string channel carrying trust blocked,
`check(sender, "")` returns the global level `trusted`, not the
channel-specific level `blocked` the claim demands for every channel C. -/
theorem c2_empty_channel_cex :
    (WhitelistService.check "a" (some "") none
      ⟨[⟨"a", none, none, TrustLevel.trusted, none⟩,
        ⟨"a", some "", none, TrustLevel.blocked, none⟩], []⟩).1.trust_level =
      TrustLevel.trusted := by decide

/-- C2 (amended to nonempty channels): with a global record at level L1 and a
channel-specific record for nonempty channel c at level L2 for the same
sender, `check` with no channel yields L1 and `check` with channel c yields
L2, in either insertion order; the records are looked up separately, never
merged. -/
theorem c2_channel_precedence (s c : String) (hc : c ≠ "") (L1 L2 : TrustLevel)
    (n1 n2 nt1 nt2 : Option String) (mp : Option String) (st : DBState)
    (hst : st.contacts = [⟨s, none, n1, L1, nt1⟩, ⟨s, some c, n2, L2, nt2⟩] ∨
           st.contacts = [⟨s, some c, n2, L2, nt2⟩, ⟨s, none, n1, L1, nt1⟩]) :
    (WhitelistService.check s none mp st).1.trust_level = L1 ∧
    (WhitelistService.check s (some c) mp st).1.trust_level = L2 := by
  rcases hst with h | h <;>
    constructor <;>
      rw [check_trust_level] <;>
        simp [WhitelistService.find_contact, h, hc, List.find?]

theorem c2_channel_precedence_witness :
    (WhitelistService.check "a" none none
      ⟨[⟨"a", none, none, TrustLevel.trusted, none⟩,
        ⟨"a", some "t", none, TrustLevel.blocked, none⟩], []⟩).1.trust_level =
      TrustLevel.trusted ∧
    (WhitelistService.check "a" (some "t") none
      ⟨[⟨"a", none, none, TrustLevel.trusted, none⟩,
        ⟨"a", some "t", none, TrustLevel.blocked, none⟩], []⟩).1.trust_level =
      TrustLevel.blocked :=
  c2_channel_precedence "a" "t" (by decide) TrustLevel.trusted TrustLevel.blocked
    none none none none none
    ⟨[⟨"a", none, none, TrustLevel.trusted, none⟩,
      ⟨"a", some "t", none, TrustLevel.blocked, none⟩], []⟩ (Or.inl rfl)

/-- C3: every `check` call appends exactly one audit entry, whose action is
LIMITED when the returned trust level is limited, ALLOWED when the result is
allowed and not limited, and BLOCKED when the result is not allowed. -/
theorem c3_audit_completeness (s : String) (ch mp : Option String) (st : DBState) :
    ∃ e, ((WhitelistService.check s ch mp st).2).audit = st.audit ++ [e] ∧
      ((WhitelistService.check s ch mp st).1.trust_level = .limited →
        e.action = .limited) ∧
      ((WhitelistService.check s ch mp st).1.allowed = true ∧
          (WhitelistService.check s ch mp st).1.trust_level ≠ .limited →
        e.action = .allowed) ∧
      ((WhitelistService.check s ch mp st).1.allowed = false →
        e.action = .blocked) := by
  cases hf : WhitelistService.find_contact s ch st.contacts with
  | none => simp [WhitelistService.check, AuditService.log_check, hf]
  | some c =>
    cases hc : c.trust_level <;>
      simp [WhitelistService.check, AuditService.log_check, hf, hc]

theorem c3_audit_completeness_witness :
    ∃ e, ((WhitelistService.check "a" none none
        (⟨[], []⟩ : DBState)).2).audit = [] ++ [e] ∧ e.action = .blocked := by
  obtain ⟨e, he, _, _, hb⟩ := c3_audit_completeness "a" none none ⟨[], []⟩
  exact ⟨e, he, hb (by decide)⟩

lemma conflict_msg_ne (s : String) :
    ("UNIQUE constraint failed: contacts.sender_id, contacts.channel" : String) ≠
      "Contact " ++ s ++ " already exists" := by
  intro h
  have hd : ("UNIQUE constraint failed: contacts.sender_id, contacts.channel" :
      String).data.head? = ("Contact " ++ s ++ " already exists").data.head? := by
    rw [h]
  rw [String.data_append, String.data_append] at hd
  have hUC : (some 'U' : Option Char) = some 'C' := hd
  simp at hUC

/-- C4 counterexample: with only the global record `("a", None)` in the
store, adding a channel-specific record for the same sender fails with the
"already exists" conflict, because `add_contact` reuses the fallback lookup;
the claim says this add succeeds. -/
theorem c4_exact_pair_cex :
    WhitelistService.add_contact "a" TrustLevel.trusted (some "whatsapp") none none
      ⟨[⟨"a", none, none, TrustLevel.trusted, none⟩], []⟩ =
      .error "Contact a already exists" := by decide

/-- C4 (amended): `add_contact` fails with the "already exists" conflict
error exactly when `_find_contact` — the same two-step exact-then-global
fallback lookup used by `check` — finds a record for `(sender_id, channel)`;
in particular a channel-specific add conflicts with a mere global record. -/
theorem c4_conflict_iff_lookup (s : String) (t : TrustLevel)
    (ch n nt : Option String) (st : DBState) :
    WhitelistService.add_contact s t ch n nt st =
        .error ("Contact " ++ s ++ " already exists") ↔
      (WhitelistService.find_contact s ch st.contacts).isSome = true := by
  cases hf : WhitelistService.find_contact s ch st.contacts with
  | some c => simp [WhitelistService.add_contact, hf]
  | none =>
    simp only [WhitelistService.add_contact, hf, Option.isSome_none,
      Bool.false_eq_true, iff_false]
    split_ifs with hu
    · intro hcontra
      injection hcontra with hmsg
      exact conflict_msg_ne s hmsg
    · intro hcontra
      cases hcontra

lemma update_ok_of_found (s : String) (ch : Option String) (t : Option TrustLevel)
    (n nt : Option String) (st : DBState) (c : Contact)
    (hf : WhitelistService.find_contact s ch st.contacts = some c) :
    ∃ p, WhitelistService.update_contact s ch t n nt st = .ok p := by
  unfold WhitelistService.update_contact
  rw [hf]
  exact ⟨_, rfl⟩

/-- C5 counterexample: with only the global record `("a", None, name "G",
trusted)` in the store, `update("a", channel="whatsapp", trust=blocked)` does
not fail with "not found" — it succeeds and mutates the global record
(channel stays `None`); the claim says it must fail because no exact-pair
record exists. -/
theorem c5_exact_pair_cex :
    (WhitelistService.update_contact "a" (some "whatsapp")
        (some TrustLevel.blocked) none none
        ⟨[⟨"a", none, some "G", TrustLevel.trusted, none⟩], []⟩).toOption.map
        (fun p => p.1) =
      some ⟨"a", none, some "G", TrustLevel.blocked, none⟩ := by decide

/-- C5 (amended): `update_contact` fails with "not found" exactly when the
fallback lookup (exact pair, else global) finds no record; on success it
mutates the record that lookup returned — possibly a global record reached
via fallback — changing exactly the provided fields and leaving omitted
fields untouched, replacing that record in place in the store. -/
theorem c5_update_semantics (s : String) (ch : Option String) (t : Option TrustLevel)
    (n nt : Option String) (st : DBState) :
    (WhitelistService.update_contact s ch t n nt st =
        .error ("Contact " ++ s ++ " not found") ↔
      WhitelistService.find_contact s ch st.contacts = none) ∧
    (∀ c res st', WhitelistService.find_contact s ch st.contacts = some c →
      WhitelistService.update_contact s ch t n nt st = .ok (res, st') →
      res.sender_id = c.sender_id ∧ res.channel = c.channel ∧
      res.trust_level = (match t with | some tv => tv | none => c.trust_level) ∧
      res.name = (match n with | some v => some v | none => c.name) ∧
      res.notes = (match nt with | some v => some v | none => c.notes) ∧
      st'.contacts = replaceFirst st.contacts c res) := by
  cases hf : WhitelistService.find_contact s ch st.contacts with
  | none =>
    constructor
    · constructor
      · intro _
        rfl
      · intro _
        unfold WhitelistService.update_contact
        rw [hf]
    · intro c res st' hc
      cases hc
  | some c0 =>
    constructor
    · constructor
      · intro he
        obtain ⟨p, hp⟩ := update_ok_of_found s ch t n nt st c0 hf
        rw [hp] at he
        cases he
      · intro hn
        cases hn
    · intro c res st' hc h2
      injection hc with hcc
      subst hcc
      unfold WhitelistService.update_contact at h2
      rw [hf] at h2
      simp only [Except.ok.injEq, Prod.mk.injEq] at h2
      obtain ⟨h3, h4⟩ := h2
      subst h3
      refine ⟨rfl, rfl, rfl, rfl, rfl, ?_⟩
      rw [← h4]
      cases t with
      | none => simp [AuditService.log_admin_action]
      | some tv =>
        by_cases htv : tv ≠ c0.trust_level <;>
          simp [htv, AuditService.log_admin_action]

theorem c5_update_semantics_witness :
    (⟨"a", none, some "G", TrustLevel.blocked, none⟩ : Contact).sender_id =
      (⟨"a", none, some "G", TrustLevel.trusted, none⟩ : Contact).sender_id ∧
    (⟨"a", none, some "G", TrustLevel.blocked, none⟩ : Contact).channel =
      (⟨"a", none, some "G", TrustLevel.trusted, none⟩ : Contact).channel ∧
    (⟨"a", none, some "G", TrustLevel.blocked, none⟩ : Contact).trust_level =
      (match some TrustLevel.blocked with
       | some tv => tv
       | none => (⟨"a", none, some "G", TrustLevel.trusted, none⟩ :
           Contact).trust_level) ∧
    (⟨"a", none, some "G", TrustLevel.blocked, none⟩ : Contact).name =
      (match (none : Option String) with
       | some v => some v
       | none => (⟨"a", none, some "G", TrustLevel.trusted, none⟩ : Contact).name) ∧
    (⟨"a", none, some "G", TrustLevel.blocked, none⟩ : Contact).notes =
      (match (none : Option String) with
       | some v => some v
       | none => (⟨"a", none, some "G", TrustLevel.trusted, none⟩ :
           Contact).notes) ∧
    ([⟨"a", none, some "G", TrustLevel.blocked, none⟩] : List Contact) =
      replaceFirst [⟨"a", none, some "G", TrustLevel.trusted, none⟩]
        ⟨"a", none, some "G", TrustLevel.trusted, none⟩
        ⟨"a", none, some "G", TrustLevel.blocked, none⟩ :=
  (c5_update_semantics "a" (some "w") (some TrustLevel.blocked) none none
      ⟨[⟨"a", none, some "G", TrustLevel.trusted, none⟩], []⟩).2
    ⟨"a", none, some "G", TrustLevel.trusted, none⟩
    ⟨"a", none, some "G", TrustLevel.blocked, none⟩
    ⟨[⟨"a", none, some "G", TrustLevel.blocked, none⟩],
     [⟨.trust_changed, "a", some "w",
       some ⟨"a", none, some "G", TrustLevel.blocked, none⟩, none,
       some "Trust changed from trusted to blocked", none⟩]⟩
    (by decide) (by decide)

lemma filter_singleton_erase (s : String) (c : Contact) :
    ∀ l : List Contact, l.filter (fun x => decide (x.sender_id = s)) = [c] →
      ∀ y ∈ l.erase c, y.sender_id ≠ s := by
  intro l
  induction l with
  | nil =>
    intro h y hy
    cases hy
  | cons x xs ih =>
    intro h y hy
    by_cases hx : x.sender_id = s
    · rw [List.filter_cons_of_pos (by simp [hx])] at h
      injection h with hxc hxs
      subst hxc
      rw [List.erase_cons_head] at hy
      intro hys
      have := List.filter_eq_nil_iff.mp hxs y hy
      simp [hys] at this
    · rw [List.filter_cons_of_neg (by simp [hx])] at h
      have hcs : c.sender_id = s := by
        have hcmem : c ∈ xs.filter (fun x => decide (x.sender_id = s)) := by
          rw [h]
          exact List.mem_singleton_self c
        simpa using (List.mem_filter.mp hcmem).2
      have hxc : x ≠ c := fun he => hx (he ▸ hcs)
      rw [List.erase_cons_tail (by simpa using hxc)] at hy
      rcases List.mem_cons.mp hy with hyx | hyz
      · rw [hyx]
        exact hx
      · exact ih h y hyz

lemma remove_not_found (s : String) (ch : Option String) (st : DBState)
    (h : WhitelistService.find_contact s ch st.contacts = none) :
    WhitelistService.remove_contact s ch st = (false, st) := by
  unfold WhitelistService.remove_contact
  rw [h]

/-- C6 counterexample: with both a global and a channel-specific record for
sender "a", `remove("a", "t")` twice returns true both times — the second
call removes the global record via the fallback lookup; the claim says the
second call must return false from every store state. -/
theorem c6_double_remove_cex :
    (WhitelistService.remove_contact "a" (some "t")
      ⟨[⟨"a", none, none, TrustLevel.trusted, none⟩,
        ⟨"a", some "t", none, TrustLevel.trusted, none⟩], []⟩).1 = true ∧
    (WhitelistService.remove_contact "a" (some "t")
      (WhitelistService.remove_contact "a" (some "t")
        ⟨[⟨"a", none, none, TrustLevel.trusted, none⟩,
          ⟨"a", some "t", none, TrustLevel.trusted, none⟩], []⟩).2).1 = true := by
  decide

/-- C6 (amended): `remove_contact` never raises (it is a total function):
not-found is the normal `(false, unchanged-store)` result; and when the
sender has at most one record in the store — so the fallback lookup cannot
reach a second record — `remove(x)` followed by `remove(x)` yields true then
false. -/
theorem c6_idempotent_removal (s : String) (ch : Option String) (st : DBState) :
    (WhitelistService.find_contact s ch st.contacts = none →
      WhitelistService.remove_contact s ch st = (false, st)) ∧
    (∀ c, WhitelistService.find_contact s ch st.contacts = some c →
      st.contacts.filter (fun x => decide (x.sender_id = s)) = [c] →
      (WhitelistService.remove_contact s ch st).1 = true ∧
      (WhitelistService.remove_contact s ch
        (WhitelistService.remove_contact s ch st).2).1 = false) := by
  constructor
  · exact remove_not_found s ch st
  · intro c hf hfil
    have hfst : (WhitelistService.remove_contact s ch st).1 = true := by
      simp [WhitelistService.remove_contact, hf, AuditService.log_admin_action]
    have hera : ((WhitelistService.remove_contact s ch st).2).contacts =
        st.contacts.erase c := by
      simp [WhitelistService.remove_contact, hf, AuditService.log_admin_action]
    refine ⟨hfst, ?_⟩
    have hnone : WhitelistService.find_contact s ch
        ((WhitelistService.remove_contact s ch st).2).contacts = none := by
      rw [hera]
      exact find_contact_eq_none s ch _ (filter_singleton_erase s c st.contacts hfil)
    rw [remove_not_found s ch _ hnone]

theorem c6_idempotent_removal_witness :
    (WhitelistService.remove_contact "a" none
      ⟨[⟨"a", none, none, TrustLevel.trusted, none⟩], []⟩).1 = true ∧
    (WhitelistService.remove_contact "a" none
      (WhitelistService.remove_contact "a" none
        ⟨[⟨"a", none, none, TrustLevel.trusted, none⟩], []⟩).2).1 = false :=
  (c6_idempotent_removal "a" none
      ⟨[⟨"a", none, none, TrustLevel.trusted, none⟩], []⟩).2
    ⟨"a", none, none, TrustLevel.trusted, none⟩ (by decide) (by decide)

/-- C7: the audit write path of `check` stores `some (truncatePreview mp)`
as the entry's preview, and `truncatePreview` maps any string longer than 500
characters to exactly 500 characters — the first 497 unchanged, the last 3 an
ellipsis marker — leaves strings of length at most 500 unchanged, and never
yields more than 500 characters. -/
theorem c7_preview_truncation (s : String) (ch : Option String) (st : DBState)
    (mp : String) :
    (∃ e, ((WhitelistService.check s ch (some mp) st).2).audit = st.audit ++ [e] ∧
        e.message_preview = some (truncatePreview mp)) ∧
    (500 < mp.length →
      (truncatePreview mp).length = 500 ∧
      (truncatePreview mp).data.take 497 = mp.data.take 497 ∧
      (truncatePreview mp).data.drop 497 = ['.', '.', '.']) ∧
    (mp.length ≤ 500 → truncatePreview mp = mp) ∧
    (truncatePreview mp).length ≤ 500 := by
  have hid : mp.length ≤ 500 → truncatePreview mp = mp := by
    intro hle
    unfold truncatePreview
    rw [if_neg]
    intro hcon
    omega
  have htr : 500 < mp.length →
      (truncatePreview mp).length = 500 ∧
      (truncatePreview mp).data.take 497 = mp.data.take 497 ∧
      (truncatePreview mp).data.drop 497 = ['.', '.', '.'] := by
    intro hlen
    have hne : mp ≠ "" := by
      intro he
      rw [he] at hlen
      simp at hlen
    have hdlen : 500 < mp.data.length := hlen
    unfold truncatePreview
    rw [if_pos ⟨hne, hlen⟩]
    have h497 : (mp.data.take 497).length = 497 := by
      rw [List.length_take]
      omega
    refine ⟨?_, ?_, ?_⟩
    · show (mp.data.take 497 ++ ['.', '.', '.']).length = 500
      rw [List.length_append, h497]
      rfl
    · show (mp.data.take 497 ++ ['.', '.', '.']).take 497 = mp.data.take 497
      exact List.take_left' h497
    · show (mp.data.take 497 ++ ['.', '.', '.']).drop 497 = ['.', '.', '.']
      exact List.drop_left' h497
  refine ⟨?_, htr, hid, ?_⟩
  · cases hf : WhitelistService.find_contact s ch st.contacts with
    | none => simp [WhitelistService.check, AuditService.log_check, hf]
    | some c =>
      cases hc : c.trust_level <;>
        simp [WhitelistService.check, AuditService.log_check, hf, hc]
  · rcases le_or_lt mp.length 500 with h | h
    · rw [hid h]
      exact h
    · rw [(htr h).1]

theorem c7_preview_truncation_witness :
    500 < (String.mk (List.replicate 600 'a')).length ∧
    (truncatePreview (String.mk (List.replicate 600 'a'))).length = 500 ∧
    (truncatePreview (String.mk (List.replicate 600 'a'))).data.take 497 =
      (String.mk (List.replicate 600 'a')).data.take 497 ∧
    (truncatePreview (String.mk (List.replicate 600 'a'))).data.drop 497 =
      ['.', '.', '.'] := by
  have hlen : 500 < (String.mk (List.replicate 600 'a')).length := by
    show 500 < (List.replicate 600 'a').length
    rw [List.length_replicate]
    norm_num
  exact ⟨hlen,
    (c7_preview_truncation "a" none ⟨[], []⟩ (String.mk (List.replicate 600 'a'))).2.1
      hlen⟩

/-- C8: `TrustLevel.from_string` is total: inputs whose lowercased form is
one of the four enum value strings parse to the corresponding level
(case-insensitively), every other input yields `blocked`, and no input is an
error (the function is total by construction). -/
theorem c8_from_string_total (s : String) :
    (pyLower s = "sovereign" → TrustLevel.from_string s = .sovereign) ∧
    (pyLower s = "trusted" → TrustLevel.from_string s = .trusted) ∧
    (pyLower s = "limited" → TrustLevel.from_string s = .limited) ∧
    (pyLower s = "blocked" → TrustLevel.from_string s = .blocked) ∧
    (pyLower s ≠ "sovereign" → pyLower s ≠ "trusted" → pyLower s ≠ "limited" →
      pyLower s ≠ "blocked" → TrustLevel.from_string s = .blocked) := by
  refine ⟨?_, ?_, ?_, ?_, ?_⟩
  · intro h
    simp [TrustLevel.from_string, h]
  · intro h
    simp [TrustLevel.from_string, h]
  · intro h
    simp [TrustLevel.from_string, h]
  · intro h
    simp [TrustLevel.from_string, h]
  · intro h1 h2 h3 h4
    simp [TrustLevel.from_string, h1, h2, h3, h4]

theorem c8_from_string_total_witness :
    TrustLevel.from_string "SoVeReIgN" = .sovereign ∧
    TrustLevel.from_string "garbage" = .blocked :=
  ⟨(c8_from_string_total "SoVeReIgN").1 (by decide),
   (c8_from_string_total "garbage").2.2.2.2 (by decide) (by decide) (by decide)
     (by decide)⟩

/-- C9: every successful `update_contact` call appends exactly one audit
entry: `TRUST_CHANGED` with a reason naming the old and new levels when a
trust level was provided and differs from the prior one, and a generic
`CONTACT_UPDATED` entry in every other case (no trust level provided, or
provided equal to the prior value). -/
theorem c9_update_audit (s : String) (ch : Option String) (t : Option TrustLevel)
    (n nt : Option String) (st : DBState) (cOld : Contact)
    (hf : WhitelistService.find_contact s ch st.contacts = some cOld) :
    ∃ res st' e, WhitelistService.update_contact s ch t n nt st = .ok (res, st') ∧
      st'.audit = st.audit ++ [e] ∧
      (match t with
       | some tv =>
         if tv ≠ cOld.trust_level then
           e.action = .trust_changed ∧
           e.decision_reason =
             some ("Trust changed from " ++ cOld.trust_level.value ++ " to " ++
               tv.value)
         else
           e.action = .contact_updated ∧
           e.decision_reason = some "Contact details updated"
       | none =>
         e.action = .contact_updated ∧
         e.decision_reason = some "Contact details updated") := by
  unfold WhitelistService.update_contact
  rw [hf]
  cases t with
  | none =>
    refine ⟨_, _, _, rfl, rfl, ?_⟩
    exact ⟨rfl, rfl⟩
  | some tv =>
    by_cases htv : tv = cOld.trust_level
    · simp only [htv, ne_eq, not_true_eq_false, ite_false]
      refine ⟨_, _, _, rfl, rfl, ?_⟩
      exact ⟨rfl, rfl⟩
    · simp only [ne_eq, htv, not_false_eq_true, ite_true]
      refine ⟨_, _, _, rfl, rfl, ?_⟩
      exact ⟨rfl, rfl⟩

theorem c9_update_audit_witness :
    ∃ res st' e,
      WhitelistService.update_contact "a" (some "w") (some TrustLevel.blocked)
        none none ⟨[⟨"a", none, none, TrustLevel.trusted, none⟩], []⟩ =
        .ok (res, st') ∧
      st'.audit = [] ++ [e] ∧
      e.action = .trust_changed ∧
      e.decision_reason = some "Trust changed from trusted to blocked" := by
  obtain ⟨res, st', e, h1, h2, h3⟩ :=
    c9_update_audit "a" (some "w") (some TrustLevel.blocked) none none
      ⟨[⟨"a", none, none, TrustLevel.trusted, none⟩], []⟩
      ⟨"a", none, none, TrustLevel.trusted, none⟩ (by decide)
  refine ⟨res, st', e, h1, h2, ?_⟩
  simpa using h3

/-- C10 counterexample: `add_contact` with channel `""` does not behave as if
no channel had been passed — it stores `""` verbatim as the new row's
channel, producing a different result (and store) than the `None`-channel
call. -/
theorem c10_empty_channel_add_cex :
    WhitelistService.add_contact "a" TrustLevel.trusted (some "") none none
      ⟨[], []⟩ ≠
    WhitelistService.add_contact "a" TrustLevel.trusted none none none
      ⟨[], []⟩ := by decide

lemma find_contact_channel_shape (s : String) (ch : Option String)
    (l : List Contact) (c : Contact)
    (h : WhitelistService.find_contact s ch l = some c) :
    c.channel = none ∨ ∃ v, v ≠ "" ∧ c.channel = some v := by
  unfold WhitelistService.find_contact at h
  cases ch with
  | none =>
    left
    have := List.find?_some h
    simp at this
    exact this.2
  | some chv =>
    by_cases hch : chv = ""
    · subst hch
      left
      have h2 : l.find? (fun c => decide (c.sender_id = s ∧ c.channel = none)) =
          some c := h
      have := List.find?_some h2
      simp at this
      exact this.2
    · simp only [ne_eq, hch, not_false_eq_true, ite_true] at h
      cases hfind : l.find?
          (fun c => decide (c.sender_id = s ∧ c.channel = some chv)) with
      | some c2 =>
        rw [hfind] at h
        injection h with hcc
        subst hcc
        right
        have := List.find?_some hfind
        simp at this
        exact ⟨chv, hch, this.2⟩
      | none =>
        rw [hfind] at h
        left
        have := List.find?_some h
        simp at this
        exact this.2

/-- C10 (amended): the lookup used by check/add/update/remove treats an
empty-string channel exactly like no channel — the channel-specific step is
skipped and only the global record is consulted — and a stored row whose
channel is `""` is never returned by the lookup.  (The operations themselves
are not fully identical to the no-channel calls: `add` stores `""` verbatim
in the created row, and audit entries record the `""` channel, which is what
the counterexample exhibits.) -/
theorem c10_empty_channel_lookup (s : String) (l : List Contact) :
    WhitelistService.find_contact s (some "") l =
      WhitelistService.find_contact s none l ∧
    (∀ ch c, WhitelistService.find_contact s ch l = some c →
      c.channel ≠ some "") := by
  constructor
  · rfl
  · intro ch c hc
    rcases find_contact_channel_shape s ch l c hc with h | ⟨v, hv, h⟩
    · rw [h]
      simp
    · rw [h]
      simp [hv]

theorem c10_empty_channel_lookup_witness :
    WhitelistService.find_contact "a" (some "")
        [⟨"a", none, none, TrustLevel.trusted, none⟩] =
      WhitelistService.find_contact "a" none
        [⟨"a", none, none, TrustLevel.trusted, none⟩] ∧
    (⟨"a", none, none, TrustLevel.trusted, none⟩ : Contact).channel ≠ some "" :=
  ⟨(c10_empty_channel_lookup "a" [⟨"a", none, none, TrustLevel.trusted, none⟩]).1,
   (c10_empty_channel_lookup "a" [⟨"a", none, none, TrustLevel.trusted, none⟩]).2
     (some "w") ⟨"a", none, none, TrustLevel.trusted, none⟩ (by decide)⟩

end Waasp
